import Mathlib

/-!
# Genesis blocks of the chain configuration (`chaincfg/genesis.go`)

A shallow embedding of the four genesis blocks (main network, test network
version 3, simulation network, regression test network) together with the
parts of the packages `chainhash` and `wire` that the genesis tables call:
the digest primitive, the transaction and header serialisations, and the
three identifiers `TxHash`, `TxHashFull` and `BlockHash`.

Bytes, unsigned machine integers and byte arrays are `Nat` and `List Nat`;
signed machine integers are `Int` and are reduced modulo `2 ^ w` where they
are written to the wire.  A field that a Go composite literal leaves out has
the Go zero value, which is the default value of the structure field here.
-/

/-! ## The digest primitive -/

namespace blake256

/-- Modelled from the spec: part of the digest primitive, which is not among the sources.
Addition of two 32-bit words, wrapping modulo `2 ^ 32`. -/
def add32 (a b : Nat) : Nat := (a + b) % 4294967296

/-- Modelled from the spec: part of the digest primitive, which is not among the sources.
Rotation of a 32-bit word to the right by `n` bits. -/
def rotr32 (x n : Nat) : Nat := ((x >>> n) ||| (x <<< (32 - n))) % 4294967296

/-- Modelled from the spec: part of the digest primitive, which is not among the sources.
Initial chaining value of the 256-bit digest. -/
def iv : List Nat :=
  [0x6A09E667, 0xBB67AE85, 0x3C6EF372, 0xA54FF53A,
   0x510E527F, 0x9B05688C, 0x1F83D9AB, 0x5BE0CD19]

/-- Modelled from the spec: part of the digest primitive, which is not among the sources.
The sixteen round constants. -/
def cst : List Nat :=
  [0x243F6A88, 0x85A308D3, 0x13198A2E, 0x03707344,
   0xA4093822, 0x299F31D0, 0x082EFA98, 0xEC4E6C89,
   0x452821E6, 0x38D01377, 0xBE5466CF, 0x34E90C6C,
   0xC0AC29B7, 0xC97C50DD, 0x3F84D5B5, 0xB5470917]

/-- Modelled from the spec: part of the digest primitive, which is not among the sources.
The ten message-word permutations; round `r` uses row `r % 10`. -/
def sigma : List (List Nat) :=
  [[0, 1, 2, 3, 4, 5, 6, 7, 8, 9, 10, 11, 12, 13, 14, 15],
   [14, 10, 4, 8, 9, 15, 13, 6, 1, 12, 0, 2, 11, 7, 5, 3],
   [11, 8, 12, 0, 5, 2, 15, 13, 10, 14, 3, 6, 7, 1, 9, 4],
   [7, 9, 3, 1, 13, 12, 11, 14, 2, 6, 5, 10, 4, 0, 15, 8],
   [9, 0, 5, 7, 2, 4, 10, 15, 14, 1, 11, 12, 6, 8, 3, 13],
   [2, 12, 6, 10, 0, 11, 8, 3, 4, 13, 7, 5, 15, 14, 1, 9],
   [12, 5, 1, 15, 14, 13, 4, 10, 0, 7, 6, 3, 9, 2, 8, 11],
   [13, 11, 7, 14, 12, 1, 3, 9, 5, 0, 15, 4, 8, 6, 2, 10],
   [6, 15, 14, 9, 11, 3, 0, 8, 12, 2, 13, 7, 1, 4, 10, 5],
   [10, 2, 8, 4, 7, 6, 1, 5, 15, 11, 9, 14, 3, 12, 13, 0]]

/-- Modelled from the spec: part of the digest primitive, which is not among the sources.
The quarter-round: step `i` of round `r` on the state words with indices
`a b c d`, fed with two message words selected by `sigma`. -/
def g (m : List Nat) (r i a b c d : Nat) (v : List Nat) : List Nat :=
  let s := sigma.getD (r % 10) []
  let j := s.getD (2 * i) 0
  let k := s.getD (2 * i + 1) 0
  let va := add32 (add32 (v.getD a 0) (v.getD b 0)) (m.getD j 0 ^^^ cst.getD k 0)
  let vd := rotr32 (v.getD d 0 ^^^ va) 16
  let vc := add32 (v.getD c 0) vd
  let vb := rotr32 (v.getD b 0 ^^^ vc) 12
  let va := add32 (add32 va vb) (m.getD k 0 ^^^ cst.getD j 0)
  let vd := rotr32 (vd ^^^ va) 8
  let vc := add32 vc vd
  let vb := rotr32 (vb ^^^ vc) 7
  (((v.set a va).set b vb).set c vc).set d vd

/-- Modelled from the spec: part of the digest primitive, which is not among the sources.
One round: four column steps followed by four diagonal steps. -/
def round (m : List Nat) (v : List Nat) (r : Nat) : List Nat :=
  let v := g m r 0 0 4 8 12 v
  let v := g m r 1 1 5 9 13 v
  let v := g m r 2 2 6 10 14 v
  let v := g m r 3 3 7 11 15 v
  let v := g m r 4 0 5 10 15 v
  let v := g m r 5 1 6 11 12 v
  let v := g m r 6 2 7 8 13 v
  g m r 7 3 4 9 14 v

/-- Modelled from the spec: part of the digest primitive, which is not among the sources.
Big-endian 32-bit words of a byte string. -/
def wordsBE : List Nat → List Nat
  | a :: b :: c :: d :: rest => (((a * 256 + b) * 256 + c) * 256 + d) :: wordsBE rest
  | _ => []

/-- Modelled from the spec: part of the digest primitive, which is not among the sources.
The four bytes of a 32-bit word, most significant first. -/
def bytesBE (w : Nat) : List Nat :=
  [w / 16777216 % 256, w / 65536 % 256, w / 256 % 256, w % 256]

/-- Modelled from the spec: part of the digest primitive, which is not among the sources.
Compression of one 64-byte block into the chaining value `h`, with bit
counter `t` and an all-zero salt; fourteen rounds. -/
def compress (h : List Nat) (block : List Nat) (t : Nat) : List Nat :=
  let m := wordsBE block
  let tlo := t % 4294967296
  let thi := t / 4294967296 % 4294967296
  let v := h ++ [cst.getD 0 0, cst.getD 1 0, cst.getD 2 0, cst.getD 3 0,
                 cst.getD 4 0 ^^^ tlo, cst.getD 5 0 ^^^ tlo,
                 cst.getD 6 0 ^^^ thi, cst.getD 7 0 ^^^ thi]
  let v := (List.range 14).foldl (round m) v
  (List.range 8).map fun i => h.getD i 0 ^^^ v.getD i 0 ^^^ v.getD (i + 8) 0

/-- Modelled from the spec: part of the digest primitive, which is not among the sources.
Padding: a one bit, zero bits, a one bit, and the 64-bit big-endian bit
length, up to a multiple of 64 bytes. -/
def pad (msg : List Nat) : List Nat :=
  let z := (119 - msg.length % 64) % 64
  let body := if z = 0 then msg ++ [0x81]
              else msg ++ [0x80] ++ List.replicate (z - 1) 0 ++ [0x01]
  let bits := 8 * msg.length
  body ++ bytesBE (bits / 4294967296 % 4294967296) ++ bytesBE (bits % 4294967296)

/-- Modelled from the spec: part of the digest primitive, which is not among the sources.
Compression of the `n` remaining blocks of the padded message `p`; block
number `i` is counted with the message bits hashed so far, and a block that
holds padding only is counted with zero. -/
def compressAll (len : Nat) : Nat → Nat → List Nat → List Nat → List Nat
  | 0, _, _, h => h
  | n + 1, i, p, h =>
    let rem := len - 64 * i
    let t := if 64 ≤ rem then 512 * (i + 1) else if 0 < rem then 8 * len else 0
    compressAll len n (i + 1) (p.drop 64) (compress h (p.take 64) t)

/-- Modelled from the spec: the digest primitive of section 2 (`Hash
primitive`, an external collaborator), which is not among the sources.  It is
the 256-bit BLAKE digest with fourteen rounds that `chainhash.HashH` applies;
the result is the 32 digest bytes. -/
def Sum256 (msg : List Nat) : List Nat :=
  let p := pad msg
  (compressAll msg.length (p.length / 64) 0 p iv).flatMap bytesBE

end blake256

/-! ## Package `chainhash` -/

namespace chainhash

/-- Modelled from the spec: part of package `chainhash`, which is not among the sources.
Size in bytes of a hash array. -/
def HashSize : Nat := 32

/-- Modelled from the spec: part of package `chainhash`, which is not among the sources.
The type `Hash`, an array of `HashSize` bytes; the type declaration is
not among the sources. -/
abbrev Hash := List Nat

/-- Modelled from the spec: part of package `chainhash`, which is not among the sources.
The composite literal `chainhash.Hash{}`: the Go zero value of the array
type, every one of the `HashSize` bytes zero. -/
def zeroHash : Hash := List.replicate HashSize 0

/-- Modelled from the spec: `chainhash.HashH`, which is not among the sources:
the digest primitive applied to a byte string, returned as a `Hash`. -/
def HashH (b : List Nat) : Hash := blake256.Sum256 b

end chainhash

/-! ## Package `time` -/

namespace time

/-- An instant, kept as seconds and nanoseconds since 1970-01-01 00:00:00
UTC. -/
structure Time where
  sec : Int := -62135596800
  nsec : Int := 0
deriving DecidableEq

/-- The function `time.Unix(sec, nsec)`: the instant `sec` seconds and `nsec`
nanoseconds after the Unix epoch, with the nanoseconds normalised into
`[0, 1e9)`. -/
def Unix (sec nsec : Int) : Time :=
  { sec := sec + nsec / 1000000000, nsec := nsec % 1000000000 }

/-- The method `Time.Unix()`: seconds since the Unix epoch. -/
def Time.Unix (t : Time) : Int := t.sec

end time

/-! ## Package `wire` -/

namespace wire

/-- Modelled from the spec: part of package `wire`, which is not among the sources.
Serialisation type `TxSerializeFull`: prefix and witness. -/
def TxSerializeFull : Nat := 0

/-- Modelled from the spec: part of package `wire`, which is not among the sources.
Serialisation type `TxSerializeNoWitness`: the prefix only. -/
def TxSerializeNoWitness : Nat := 1

/-- Modelled from the spec: part of package `wire`, which is not among the sources.
Serialisation type `TxSerializeOnlyWitness`: the witness only. -/
def TxSerializeOnlyWitness : Nat := 2

/-- Modelled from the spec: the constant `wire.NullValueIn`, declared outside
the sources: the null value of an input's `ValueIn` (an `int64`), distinct
from a legitimate value of zero. -/
def NullValueIn : Int := -1

/-- Modelled from the spec: the constant `wire.NullBlockHeight`, declared
outside the sources: the null value of an input's `BlockHeight`; it refers to
the genesis block. -/
def NullBlockHeight : Nat := 0x00000000

/-- Modelled from the spec: the constant `wire.NullBlockIndex`, declared
outside the sources: the null value of an input's `BlockIndex`, an index no
transaction of a block has. -/
def NullBlockIndex : Nat := 0xffffffff

/-- Modelled from the spec: part of package `wire`, which is not among the sources.
The type `wire.OutPoint`: a reference to a previous transaction output. -/
structure OutPoint where
  Hash : chainhash.Hash := chainhash.zeroHash
  Index : Nat := 0
  Tree : Int := 0
deriving DecidableEq

/-- Modelled from the spec: part of package `wire`, which is not among the sources.
The type `wire.TxIn`: a transaction input. -/
structure TxIn where
  PreviousOutPoint : OutPoint := {}
  Sequence : Nat := 0
  ValueIn : Int := 0
  BlockHeight : Nat := 0
  BlockIndex : Nat := 0
  SignatureScript : List Nat := []
deriving DecidableEq

/-- Modelled from the spec: part of package `wire`, which is not among the sources.
The type `wire.TxOut`: a transaction output. -/
structure TxOut where
  Value : Int := 0
  Version : Nat := 0
  PkScript : List Nat := []
deriving DecidableEq

/-- Modelled from the spec: part of package `wire`, which is not among the sources.
The type `wire.MsgTx`: a transaction. -/
structure MsgTx where
  SerType : Nat := 0
  Version : Nat := 0
  TxIn : List TxIn := []
  TxOut : List TxOut := []
  LockTime : Nat := 0
  Expiry : Nat := 0
deriving DecidableEq

/-- Modelled from the spec: part of package `wire`, which is not among the sources.
The type `wire.BlockHeader`: a block header. -/
structure BlockHeader where
  Version : Int := 0
  PrevBlock : chainhash.Hash := chainhash.zeroHash
  MerkleRoot : chainhash.Hash := chainhash.zeroHash
  StakeRoot : chainhash.Hash := chainhash.zeroHash
  VoteBits : Nat := 0
  FinalState : List Nat := List.replicate 6 0
  Voters : Nat := 0
  FreshStake : Nat := 0
  Revocations : Nat := 0
  PoolSize : Nat := 0
  Bits : Nat := 0
  SBits : Int := 0
  Height : Nat := 0
  Size : Nat := 0
  Timestamp : time.Time := {}
  Nonce : Nat := 0
  ExtraData : List Nat := List.replicate 32 0
  StakeVersion : Nat := 0
deriving DecidableEq

/-- Modelled from the spec: part of package `wire`, which is not among the sources.
The type `wire.MsgBlock`: a header and the ordered transactions. -/
structure MsgBlock where
  Header : BlockHeader := {}
  Transactions : List MsgTx := []
deriving DecidableEq

/-- Modelled from the spec: part of package `wire`, which is not among the sources.
Little-endian bytes of the `n` low-order bytes of `x`. -/
def putLE : Nat → Nat → List Nat
  | 0, _ => []
  | n + 1, x => x % 256 :: putLE n (x / 256)

/-- Modelled from the spec: part of package `wire`, which is not among the sources.
A 16-bit unsigned integer on the wire. -/
def putUint16 (x : Nat) : List Nat := putLE 2 (x % 65536)

/-- Modelled from the spec: part of package `wire`, which is not among the sources.
A 32-bit unsigned integer on the wire. -/
def putUint32 (x : Nat) : List Nat := putLE 4 (x % 4294967296)

/-- Modelled from the spec: part of package `wire`, which is not among the sources.
A 64-bit unsigned integer on the wire. -/
def putUint64 (x : Nat) : List Nat := putLE 8 (x % 18446744073709551616)

/-- Modelled from the spec: part of package `wire`, which is not among the sources.
The conversion `uint8(x)` of a signed integer, two's complement. -/
def toUint8 (x : Int) : Nat := (x % 256).toNat

/-- Modelled from the spec: part of package `wire`, which is not among the sources.
The conversion `uint32(x)` of a signed integer, two's complement. -/
def toUint32 (x : Int) : Nat := (x % 4294967296).toNat

/-- Modelled from the spec: part of package `wire`, which is not among the sources.
The conversion `uint64(x)` of a signed integer, two's complement. -/
def toUint64 (x : Int) : Nat := (x % 18446744073709551616).toNat

/-- Modelled from the spec: part of package `wire`, which is not among the sources.
The variable-length integer encoding of a count or length. -/
def WriteVarInt (n : Nat) : List Nat :=
  if n < 0xfd then [n]
  else if n ≤ 0xffff then 0xfd :: putLE 2 n
  else if n ≤ 0xffffffff then 0xfe :: putLE 4 n
  else 0xff :: putUint64 n

/-- Modelled from the spec: part of package `wire`, which is not among the sources.
A variable-length byte string: its length, then its bytes. -/
def WriteVarBytes (b : List Nat) : List Nat := WriteVarInt b.length ++ b

/-- Modelled from the spec: part of package `wire`, which is not among the sources.
An outpoint on the wire: hash, index, tree. -/
def WriteOutPoint (op : OutPoint) : List Nat :=
  op.Hash ++ putUint32 op.Index ++ [toUint8 op.Tree]

/-- Modelled from the spec: part of package `wire`, which is not among the sources.
The prefix part of an input: the outpoint and the sequence number. -/
def writeTxInPre (ti : TxIn) : List Nat :=
  WriteOutPoint ti.PreviousOutPoint ++ putUint32 ti.Sequence

/-- Modelled from the spec: part of package `wire`, which is not among the sources.
The witness part of an input: value, block height, block index and the
signature script. -/
def writeTxInWitness (ti : TxIn) : List Nat :=
  putUint64 (toUint64 ti.ValueIn) ++ putUint32 ti.BlockHeight ++
    putUint32 ti.BlockIndex ++ WriteVarBytes ti.SignatureScript

/-- Modelled from the spec: part of package `wire`, which is not among the sources.
An output on the wire: value, script version, public key script. -/
def writeTxOut (o : TxOut) : List Nat :=
  putUint64 (toUint64 o.Value) ++ putUint16 o.Version ++ WriteVarBytes o.PkScript

/-- Modelled from the spec: part of package `wire`, which is not among the sources.
The transaction prefix: inputs without their witness data, outputs, lock
time and expiry. -/
def MsgTx.encodePre (msg : MsgTx) : List Nat :=
  WriteVarInt msg.TxIn.length ++ msg.TxIn.flatMap writeTxInPre ++
    WriteVarInt msg.TxOut.length ++ msg.TxOut.flatMap writeTxOut ++
    putUint32 msg.LockTime ++ putUint32 msg.Expiry

/-- Modelled from the spec: part of package `wire`, which is not among the sources.
The transaction witness: the witness data of every input. -/
def MsgTx.encodeWitness (msg : MsgTx) : List Nat :=
  WriteVarInt msg.TxIn.length ++ msg.TxIn.flatMap writeTxInWitness

/-- Modelled from the spec: `MsgTx.Serialize`, which is not among the sources:
the serialised byte layout of a transaction in the form its serialisation
type selects.  The first four bytes carry the version in the low 16 bits and
the serialisation type in the high 16 bits. -/
def MsgTx.Serialize (msg : MsgTx) : List Nat :=
  putUint32 (msg.Version % 65536 + msg.SerType % 65536 * 65536) ++
    (if msg.SerType = TxSerializeNoWitness then msg.encodePre
     else if msg.SerType = TxSerializeOnlyWitness then msg.encodeWitness
     else if msg.SerType = TxSerializeFull then msg.encodePre ++ msg.encodeWitness
     else [])

/-- Modelled from the spec: `MsgTx.TxHash`, which is not among the sources: the
reduced identifier of section 4.1, the digest of the serialisation that
leaves the unlocking scripts (the witness data) out. -/
def MsgTx.TxHash (msg : MsgTx) : chainhash.Hash :=
  chainhash.HashH (MsgTx.Serialize { msg with SerType := TxSerializeNoWitness })

/-- Modelled from the spec: `MsgTx.TxHashWitness`, which is not among the
sources: the digest of the serialisation of the witness data alone. -/
def MsgTx.TxHashWitness (msg : MsgTx) : chainhash.Hash :=
  chainhash.HashH (MsgTx.Serialize { msg with SerType := TxSerializeOnlyWitness })

/-- Modelled from the spec: `MsgTx.TxHashFull`, which is not among the sources:
the full identifier of section 4.1, which covers every field including the
unlocking scripts: the digest of the reduced identifier followed by the
witness digest. -/
def MsgTx.TxHashFull (msg : MsgTx) : chainhash.Hash :=
  chainhash.HashH (msg.TxHash ++ msg.TxHashWitness)

/-- Modelled from the spec: `BlockHeader.Serialize`, which is not among the
sources: every header field in its fixed binary layout, 180 bytes. -/
def BlockHeader.Serialize (h : BlockHeader) : List Nat :=
  putUint32 (toUint32 h.Version) ++ h.PrevBlock ++ h.MerkleRoot ++ h.StakeRoot ++
    putUint16 h.VoteBits ++ h.FinalState ++ putUint16 h.Voters ++
    [h.FreshStake % 256] ++ [h.Revocations % 256] ++ putUint32 h.PoolSize ++
    putUint32 h.Bits ++ putUint64 (toUint64 h.SBits) ++ putUint32 h.Height ++
    putUint32 h.Size ++ putUint32 (toUint32 h.Timestamp.Unix) ++ putUint32 h.Nonce ++
    h.ExtraData ++ putUint32 h.StakeVersion

/-- Modelled from the spec: `BlockHeader.BlockHash`, which is not among the
sources: the header hasher of section 4.3, the digest of the serialised
header. -/
def BlockHeader.BlockHash (h : BlockHeader) : chainhash.Hash :=
  chainhash.HashH h.Serialize

/-- Modelled from the spec: `MsgBlock.BlockHash`, which is not among the
sources: the block hash is the hash of the block's header. -/
def MsgBlock.BlockHash (msg : MsgBlock) : chainhash.Hash :=
  msg.Header.BlockHash

end wire

/-! ## Package `chaincfg`: the genesis tables -/

namespace chaincfg

/-- The coinbase transaction for the genesis blocks for the main network. -/
def genesisCoinbaseTx : wire.MsgTx :=
  { SerType := wire.TxSerializeFull,
    Version := 1,
    TxIn := [
      { PreviousOutPoint := {
          Hash := chainhash.zeroHash,
          Index := 0xffffffff,
          Tree := 0 },
        SignatureScript := [
          0x00, 0x00],
        Sequence := 0xffffffff,
        BlockHeight := wire.NullBlockHeight,
        BlockIndex := wire.NullBlockIndex,
        ValueIn := wire.NullValueIn }],
    TxOut := [
      { Version := 0x0000,
        Value := 0x00000000,
        PkScript := [
          0x80, 0x16, 0x79, 0xe9, 0x85, 0x61, 0xad, 0xa9,
          0x6c, 0xae, 0xc2, 0x94, 0x9a, 0x5d, 0x41, 0xc4,
          0xca, 0xb3, 0x85, 0x1e, 0xb7, 0x40, 0xd9, 0x51,
          0xc1, 0x0e, 0xcb, 0xcf, 0x26, 0x5c, 0x1f, 0xd9] }],
    LockTime := 0,
    Expiry := 0 }

/-- The hash of the first transaction in the genesis block for the main
network. -/
def genesisMerkleRoot : chainhash.Hash := genesisCoinbaseTx.TxHashFull

/-- The genesis block of the main network. -/
def genesisBlock : wire.MsgBlock :=
  { Header := {
      Version := 1,
      PrevBlock := chainhash.zeroHash,
      MerkleRoot := genesisMerkleRoot,
      StakeRoot := chainhash.zeroHash,
      Timestamp := time.Unix 1454954400 0,
      Bits := 0x1b01ffff,
      SBits := 2 * 100000000,
      Nonce := 0x00000000,
      StakeVersion := 0 },
    Transactions := [genesisCoinbaseTx] }

/-- The hash of the first block in the block chain for the main network. -/
def genesisHash : chainhash.Hash := genesisBlock.BlockHash

/-- The genesis block of the test network (version 3). -/
def testNet3GenesisBlock : wire.MsgBlock :=
  { Header := {
      Version := 6,
      PrevBlock := chainhash.zeroHash,
      MerkleRoot := genesisCoinbaseTx.TxHash,
      Timestamp := time.Unix 1533513600 0,
      Bits := 0x1e00ffff,
      SBits := 20000000,
      Nonce := 0x18aea41a,
      StakeVersion := 6 },
    Transactions := [genesisCoinbaseTx] }

/-- The hash of the first block in the block chain for the test network
(version 3). -/
def testNet3GenesisHash : chainhash.Hash := testNet3GenesisBlock.BlockHash

/-- The coinbase transaction listed in the simulation network genesis
block. -/
def simNetGenesisCoinbaseTx : wire.MsgTx :=
  { SerType := wire.TxSerializeFull,
    Version := 1,
    TxIn := [
      { PreviousOutPoint := {
          Hash := chainhash.zeroHash,
          Index := 0xffffffff },
        SignatureScript := [
          0x04, 0xff, 0xff, 0x00, 0x1d, 0x01, 0x04, 0x45,
          0x54, 0x68, 0x65, 0x20, 0x54, 0x69, 0x6d, 0x65,
          0x73, 0x20, 0x30, 0x33, 0x2f, 0x4a, 0x61, 0x6e,
          0x2f, 0x32, 0x30, 0x30, 0x39, 0x20, 0x43, 0x68,
          0x61, 0x6e, 0x63, 0x65, 0x6c, 0x6c, 0x6f, 0x72,
          0x20, 0x6f, 0x6e, 0x20, 0x62, 0x72, 0x69, 0x6e,
          0x6b, 0x20, 0x6f, 0x66, 0x20, 0x73, 0x65, 0x63,
          0x6f, 0x6e, 0x64, 0x20, 0x62, 0x61, 0x69, 0x6c,
          0x6f, 0x75, 0x74, 0x20, 0x66, 0x6f, 0x72, 0x20,
          0x62, 0x61, 0x6e, 0x6b, 0x73],
        Sequence := 0xffffffff }],
    TxOut := [
      { Value := 0x00000000,
        PkScript := [
          0x41, 0x04, 0x67, 0x8a, 0xfd, 0xb0, 0xfe, 0x55,
          0x48, 0x27, 0x19, 0x67, 0xf1, 0xa6, 0x71, 0x30,
          0xb7, 0x10, 0x5c, 0xd6, 0xa8, 0x28, 0xe0, 0x39,
          0x09, 0xa6, 0x79, 0x62, 0xe0, 0xea, 0x1f, 0x61,
          0xde, 0xb6, 0x49, 0xf6, 0xbc, 0x3f, 0x4c, 0xef,
          0x38, 0xc4, 0xf3, 0x55, 0x04, 0xe5, 0x1e, 0xc1,
          0x12, 0xde, 0x5c, 0x38, 0x4d, 0xf7, 0xba, 0x0b,
          0x8d, 0x57, 0x8a, 0x4c, 0x70, 0x2b, 0x6b, 0xf1,
          0x1d, 0x5f, 0xac] }],
    LockTime := 0,
    Expiry := 0 }

/-- The merkle root of the simulation network genesis header; the source
sets it to the merkle root of the main network. -/
def simNetGenesisMerkleRoot : chainhash.Hash := genesisMerkleRoot

/-- The genesis block of the simulation test network. -/
def simNetGenesisBlock : wire.MsgBlock :=
  { Header := {
      Version := 1,
      PrevBlock := [
        0x00, 0x00, 0x00, 0x00, 0x00, 0x00, 0x00, 0x00,
        0x00, 0x00, 0x00, 0x00, 0x00, 0x00, 0x00, 0x00,
        0x00, 0x00, 0x00, 0x00, 0x00, 0x00, 0x00, 0x00,
        0x00, 0x00, 0x00, 0x00, 0x00, 0x00, 0x00, 0x00],
      MerkleRoot := simNetGenesisMerkleRoot,
      StakeRoot := [
        0x00, 0x00, 0x00, 0x00, 0x00, 0x00, 0x00, 0x00,
        0x00, 0x00, 0x00, 0x00, 0x00, 0x00, 0x00, 0x00,
        0x00, 0x00, 0x00, 0x00, 0x00, 0x00, 0x00, 0x00,
        0x00, 0x00, 0x00, 0x00, 0x00, 0x00, 0x00, 0x00],
      VoteBits := 0,
      FinalState := [0x00, 0x00, 0x00, 0x00, 0x00, 0x00],
      Voters := 0,
      FreshStake := 0,
      Revocations := 0,
      Timestamp := time.Unix 1401292357 0,
      PoolSize := 0,
      Bits := 0x207fffff,
      SBits := 0,
      Nonce := 0,
      StakeVersion := 0,
      Height := 0 },
    Transactions := [simNetGenesisCoinbaseTx] }

/-- The hash of the first block in the block chain for the simulation test
network. -/
def simNetGenesisHash : chainhash.Hash := simNetGenesisBlock.BlockHash

/-- The merkle root of the regression test network genesis header; the source
sets it to the merkle root of the main network. -/
def regNetGenesisMerkleRoot : chainhash.Hash := genesisMerkleRoot

/-- The genesis block of the regression test network. -/
def regNetGenesisBlock : wire.MsgBlock :=
  { Header := {
      Version := 1,
      PrevBlock := [
        0x00, 0x00, 0x00, 0x00, 0x00, 0x00, 0x00, 0x00,
        0x00, 0x00, 0x00, 0x00, 0x00, 0x00, 0x00, 0x00,
        0x00, 0x00, 0x00, 0x00, 0x00, 0x00, 0x00, 0x00,
        0x00, 0x00, 0x00, 0x00, 0x00, 0x00, 0x00, 0x00],
      MerkleRoot := regNetGenesisMerkleRoot,
      StakeRoot := [
        0x00, 0x00, 0x00, 0x00, 0x00, 0x00, 0x00, 0x00,
        0x00, 0x00, 0x00, 0x00, 0x00, 0x00, 0x00, 0x00,
        0x00, 0x00, 0x00, 0x00, 0x00, 0x00, 0x00, 0x00,
        0x00, 0x00, 0x00, 0x00, 0x00, 0x00, 0x00, 0x00],
      VoteBits := 0,
      FinalState := [0x00, 0x00, 0x00, 0x00, 0x00, 0x00],
      Voters := 0,
      FreshStake := 0,
      Revocations := 0,
      Timestamp := time.Unix 1538524800 0,
      PoolSize := 0,
      Bits := 0x207fffff,
      SBits := 0,
      Nonce := 0,
      StakeVersion := 0,
      Height := 0 },
    Transactions := [genesisCoinbaseTx] }

/-- The hash of the first block in the block chain for the regression test
network. -/
def regNetGenesisHash : chainhash.Hash := regNetGenesisBlock.BlockHash

end chaincfg

/-! ## Package `blockchain`: the derivations that consume the tables -/

namespace blockchain

/-- Modelled from the spec: the merkle root derivation of section 4.2, which
is not among the sources.  For a list of one transaction the root is that
transaction's full identifier, with no combination step; the derivation for
several leaves is outside this unit, and of an empty list there is no root. -/
def DeriveMerkleRoot : List wire.MsgTx → Option chainhash.Hash
  | [tx] => some tx.TxHashFull
  | _ => none

/-- Modelled from the spec: part of the compact difficulty decoding, which is not among the sources.
The exponent byte of a compact value: its top 8 bits. -/
def compactExponent (compact : Nat) : Nat := compact >>> 24

/-- Modelled from the spec: part of the compact difficulty decoding, which is not among the sources.
The mantissa of a compact value: its low 23 bits. -/
def compactMantissa (compact : Nat) : Nat := compact &&& 0x007fffff

/-- Modelled from the spec: `CompactToBig`, which is not among the sources: the
target that a compact 32-bit difficulty value denotes.  Bit 23 is the sign;
with exponent `e` and mantissa `m` the magnitude is `m` shifted left by
`8 * (e - 3)` bits, or right by `8 * (3 - e)` bits when `e` is at most 3. -/
def CompactToBig (compact : Nat) : Int :=
  let mantissa := compactMantissa compact
  let isNegative := compact &&& 0x00800000 ≠ 0
  let exponent := compactExponent compact
  let bn : Nat :=
    if exponent ≤ 3 then mantissa >>> (8 * (3 - exponent))
    else mantissa <<< (8 * (exponent - 3))
  if isNegative then -(bn : Int) else (bn : Int)

end blockchain

/-! ## Calendar instants, for the comments beside the timestamps -/

namespace calendar

/-- Leap years of the Gregorian calendar. -/
def isLeap (y : Nat) : Bool := y % 4 == 0 && (y % 100 != 0 || y % 400 == 0)

/-- Number of days of a year. -/
def daysInYear (y : Nat) : Nat := if isLeap y then 366 else 365

/-- Number of days of month `m` (1 to 12) of year `y`. -/
def daysInMonth (y m : Nat) : Nat :=
  match m with
  | 1 => 31
  | 2 => if isLeap y then 29 else 28
  | 3 => 31
  | 4 => 30
  | 5 => 31
  | 6 => 30
  | 7 => 31
  | 8 => 31
  | 9 => 30
  | 10 => 31
  | 11 => 30
  | 12 => 31
  | _ => 0

/-- Days from 1970-01-01 to the first day of year `y`, for `y` from 1970 on. -/
def daysBeforeYear (y : Nat) : Nat :=
  ((List.range' 1970 (y - 1970)).map daysInYear).sum

/-- Days from the first day of year `y` to the first day of its month `m`. -/
def daysBeforeMonth (y m : Nat) : Nat :=
  ((List.range' 1 (m - 1)).map (daysInMonth y)).sum

/-- A calendar instant: a date and a time of day on a clock that is `offset`
seconds east of UTC. -/
structure Civil where
  year : Nat
  month : Nat
  day : Nat
  hour : Nat
  minute : Nat
  second : Nat
  offset : Int
deriving DecidableEq

/-- A well-formed calendar instant from 1970 on. -/
def Civil.valid (c : Civil) : Bool :=
  decide (1970 ≤ c.year) && decide (1 ≤ c.month) && decide (c.month ≤ 12) &&
    decide (1 ≤ c.day) && decide (c.day ≤ daysInMonth c.year c.month) &&
    decide (c.hour < 24) && decide (c.minute < 60) && decide (c.second < 60)

/-- Unix time of a calendar instant: seconds since 1970-01-01 00:00:00 UTC. -/
def Civil.Unix (c : Civil) : Int :=
  ((daysBeforeYear c.year + daysBeforeMonth c.year c.month + (c.day - 1)) * 86400
      + c.hour * 3600 + c.minute * 60 + c.second : Nat) - c.offset

/-- Day of the week of a Unix time, in UTC: 0 is Sunday, 1 is Monday, and so
on; 1970-01-01 was a Thursday. -/
def weekday (unix : Int) : Nat := ((unix / 86400 + 4) % 7).toNat

/-- The comment beside the main network timestamp:
`Mon, 08 Feb 2016 18:00:00 GMT`. -/
def genesisTimestampComment : Civil :=
  { year := 2016, month := 2, day := 8, hour := 18, minute := 0, second := 0, offset := 0 }

/-- The comment beside the test network timestamp:
`2018-08-06 00:00:00 +0000 UTC`. -/
def testNet3TimestampComment : Civil :=
  { year := 2018, month := 8, day := 6, hour := 0, minute := 0, second := 0, offset := 0 }

/-- The comment beside the simulation network timestamp:
`2009-01-08 20:54:25 -0600 CST`. -/
def simNetTimestampComment : Civil :=
  { year := 2009, month := 1, day := 8, hour := 20, minute := 54, second := 25,
    offset := -(6 * 3600) }

/-- The comment beside the regression test network timestamp:
`2018-10-03 00:00:00 +0000 UTC`. -/
def regNetTimestampComment : Civil :=
  { year := 2018, month := 10, day := 3, hour := 0, minute := 0, second := 0, offset := 0 }

/-- The instant `2014-05-28 15:52:37 +0000 UTC`. -/
def simNetTimestampInstant : Civil :=
  { year := 2014, month := 5, day := 28, hour := 15, minute := 52, second := 37, offset := 0 }

end calendar

/-- The target in the comment beside the test network difficulty bits. -/
def testNet3BitsComment : Nat :=
  0x000000ffff000000000000000000000000000000000000000000000000000000

/-- The target in the comment beside the simulation and regression test
network difficulty bits. -/
def simNetBitsComment : Nat :=
  0x7fffff0000000000000000000000000000000000000000000000000000000000

/-- The decimal number in the comment beside the simulation and regression
test network difficulty bits. -/
def simNetBitsDecimalComment : Nat := 545259519

/-! ## Known answers of the digest and of the four block hashes -/

set_option maxRecDepth 1000000 in
/-- The digest of the empty byte string is the published test vector. -/
theorem blake256_empty_known_answer :
    blake256.Sum256 [] =
      [0x71, 0x6f, 0x6e, 0x86, 0x3f, 0x74, 0x4b, 0x9a, 0xc2, 0x2c, 0x97, 0xec,
       0x7b, 0x76, 0xea, 0x5f, 0x59, 0x08, 0xbc, 0x5b, 0x2f, 0x67, 0xc6, 0x15,
       0x10, 0xbf, 0xc4, 0x75, 0x13, 0x84, 0xea, 0x7a] := by
  decide!

set_option maxRecDepth 1000000 in
/-- The reduced identifier of the main network coinbase transaction. -/
theorem genesisCoinbaseTx_TxHash_known_answer :
    chaincfg.genesisCoinbaseTx.TxHash =
      [0x2c, 0x0a, 0xd6, 0x03, 0xd4, 0x4a, 0x16, 0x69, 0x8a, 0xc9, 0x51, 0xfa,
       0x22, 0xaa, 0xb5, 0xe7, 0xb3, 0x02, 0x93, 0xfa, 0x1d, 0x0a, 0xc7, 0x25,
       0x60, 0xcd, 0xfc, 0xc9, 0xea, 0xbc, 0xdf, 0xe7] := by
  decide!

set_option maxRecDepth 1000000 in
/-- The full identifier of the main network coinbase transaction. -/
theorem genesisCoinbaseTx_TxHashFull_known_answer :
    chaincfg.genesisCoinbaseTx.TxHashFull =
      [0x0d, 0xc1, 0x01, 0xdf, 0xc3, 0xc6, 0xa2, 0xeb, 0x10, 0xca, 0x0c, 0x53,
       0x74, 0xe1, 0x0d, 0x28, 0xfe, 0xb5, 0x3f, 0x7e, 0xab, 0xcc, 0x85, 0x05,
       0x11, 0xce, 0xad, 0xb9, 0x91, 0x74, 0xaa, 0x66] := by
  decide!

set_option maxRecDepth 1000000 in
/-- The full identifier of the simulation network coinbase transaction. -/
theorem simNetGenesisCoinbaseTx_TxHashFull_known_answer :
    chaincfg.simNetGenesisCoinbaseTx.TxHashFull =
      [0x92, 0x56, 0x29, 0xc5, 0x58, 0x2b, 0xbf, 0xc3, 0x60, 0x9d, 0x71, 0xa2,
       0xf4, 0xa8, 0x87, 0x44, 0x3c, 0x80, 0xd5, 0x4a, 0x1f, 0xe3, 0x1e, 0x95,
       0xe9, 0x5d, 0x42, 0xf3, 0xe2, 0x88, 0x94, 0x5c] := by
  decide!

set_option maxRecDepth 1000000 in
/-- The main network genesis hash; read back to front it is the published
`298e5cc3d985bfe7f81dc135f360abe089edd4396b86d2de66b0cef42b21d980`. -/
theorem genesisHash_known_answer :
    chaincfg.genesisHash =
      [0x80, 0xd9, 0x21, 0x2b, 0xf4, 0xce, 0xb0, 0x66, 0xde, 0xd2, 0x86, 0x6b,
       0x39, 0xd4, 0xed, 0x89, 0xe0, 0xab, 0x60, 0xf3, 0x35, 0xc1, 0x1d, 0xf8,
       0xe7, 0xbf, 0x85, 0xd9, 0xc3, 0x5c, 0x8e, 0x29] := by
  simp only [chaincfg.genesisHash, chaincfg.genesisBlock, wire.MsgBlock.BlockHash,
    wire.BlockHeader.BlockHash, chaincfg.genesisMerkleRoot,
    genesisCoinbaseTx_TxHashFull_known_answer]
  decide!

set_option maxRecDepth 1000000 in
/-- The test network genesis hash; read back to front it is the published
`a649dce53918caf422e9c711c858837e08d626ecfcd198969b24f7b634a49bac`. -/
theorem testNet3GenesisHash_known_answer :
    chaincfg.testNet3GenesisHash =
      [0xac, 0x9b, 0xa4, 0x34, 0xb6, 0xf7, 0x24, 0x9b, 0x96, 0x98, 0xd1, 0xfc,
       0xec, 0x26, 0xd6, 0x08, 0x7e, 0x83, 0x58, 0xc8, 0x11, 0xc7, 0xe9, 0x22,
       0xf4, 0xca, 0x18, 0x39, 0xe5, 0xdc, 0x49, 0xa6] := by
  simp only [chaincfg.testNet3GenesisHash, chaincfg.testNet3GenesisBlock,
    wire.MsgBlock.BlockHash, wire.BlockHeader.BlockHash,
    genesisCoinbaseTx_TxHash_known_answer]
  decide!

set_option maxRecDepth 1000000 in
/-- The simulation network genesis hash; read back to front it is the
published `5bec7567af40504e0994db3b573c186fffcc4edefe096ff2e58d00523bd7e8a6`. -/
theorem simNetGenesisHash_known_answer :
    chaincfg.simNetGenesisHash =
      [0xa6, 0xe8, 0xd7, 0x3b, 0x52, 0x00, 0x8d, 0xe5, 0xf2, 0x6f, 0x09, 0xfe,
       0xde, 0x4e, 0xcc, 0xff, 0x6f, 0x18, 0x3c, 0x57, 0x3b, 0xdb, 0x94, 0x09,
       0x4e, 0x50, 0x40, 0xaf, 0x67, 0x75, 0xec, 0x5b] := by
  simp only [chaincfg.simNetGenesisHash, chaincfg.simNetGenesisBlock,
    wire.MsgBlock.BlockHash, wire.BlockHeader.BlockHash,
    chaincfg.simNetGenesisMerkleRoot, chaincfg.genesisMerkleRoot,
    genesisCoinbaseTx_TxHashFull_known_answer]
  decide!

set_option maxRecDepth 1000000 in
/-- The regression test network genesis hash; read back to front it is the
published `2ced94b4ae95bba344cfa043268732d230649c640f92dce2d9518823d3057cb0`. -/
theorem regNetGenesisHash_known_answer :
    chaincfg.regNetGenesisHash =
      [0xb0, 0x7c, 0x05, 0xd3, 0x23, 0x88, 0x51, 0xd9, 0xe2, 0xdc, 0x92, 0x0f,
       0x64, 0x9c, 0x64, 0x30, 0xd2, 0x32, 0x87, 0x26, 0x43, 0xa0, 0xcf, 0x44,
       0xa3, 0xbb, 0x95, 0xae, 0xb4, 0x94, 0xed, 0x2c] := by
  simp only [chaincfg.regNetGenesisHash, chaincfg.regNetGenesisBlock,
    wire.MsgBlock.BlockHash, wire.BlockHeader.BlockHash,
    chaincfg.regNetGenesisMerkleRoot, chaincfg.genesisMerkleRoot,
    genesisCoinbaseTx_TxHashFull_known_answer]
  decide!

/-! ## The claims -/

set_option maxRecDepth 100000 in
open chaincfg in
/-- C1: the merkle root stored in a genesis header against the merkle root
derived from the block's own transaction list (the full identifier of its only
transaction).  The two agree for the main and the regression test network;
for the test network (version 3) and for the simulation network the stored
root is a different hash from the derived one. -/
theorem C1_header_root_against_derived_root :
    blockchain.DeriveMerkleRoot genesisBlock.Transactions
        = some genesisBlock.Header.MerkleRoot ∧
    blockchain.DeriveMerkleRoot regNetGenesisBlock.Transactions
        = some regNetGenesisBlock.Header.MerkleRoot ∧
    blockchain.DeriveMerkleRoot testNet3GenesisBlock.Transactions
        ≠ some testNet3GenesisBlock.Header.MerkleRoot ∧
    blockchain.DeriveMerkleRoot simNetGenesisBlock.Transactions
        ≠ some simNetGenesisBlock.Header.MerkleRoot := by
  refine ⟨?_, ?_, ?_, ?_⟩
  · simp only [genesisBlock, genesisMerkleRoot, blockchain.DeriveMerkleRoot]
  · simp only [regNetGenesisBlock, regNetGenesisMerkleRoot, genesisMerkleRoot,
      blockchain.DeriveMerkleRoot]
  · show some genesisCoinbaseTx.TxHashFull ≠ some genesisCoinbaseTx.TxHash
    rw [genesisCoinbaseTx_TxHashFull_known_answer, genesisCoinbaseTx_TxHash_known_answer]
    decide
  · show some simNetGenesisCoinbaseTx.TxHashFull ≠ some genesisCoinbaseTx.TxHashFull
    rw [simNetGenesisCoinbaseTx_TxHashFull_known_answer,
      genesisCoinbaseTx_TxHashFull_known_answer]
    decide

set_option maxRecDepth 100000 in
open chaincfg in
/-- C2: the main network and the regression test network genesis blocks carry
the same transaction list, the single transaction `genesisCoinbaseTx`, and
the same merkle root, as constants and as header fields. -/
theorem C2_main_and_regnet_share_coinbase_and_root :
    regNetGenesisBlock.Transactions = genesisBlock.Transactions ∧
    genesisBlock.Transactions = [genesisCoinbaseTx] ∧
    regNetGenesisMerkleRoot = genesisMerkleRoot ∧
    regNetGenesisBlock.Header.MerkleRoot = genesisBlock.Header.MerkleRoot := by
  refine ⟨rfl, rfl, rfl, ?_⟩
  simp only [regNetGenesisBlock, genesisBlock, regNetGenesisMerkleRoot]

set_option maxRecDepth 100000 in
open chaincfg in
/-- C3: in each of the four genesis headers the previous block hash is the
all-zero hash of 32 bytes, and the 32-byte zero literal written out for the
simulation and regression test networks is the zero value `chainhash.Hash{}`
used for the main and test networks. -/
theorem C3_prev_block_all_zero :
    genesisBlock.Header.PrevBlock = chainhash.zeroHash ∧
    testNet3GenesisBlock.Header.PrevBlock = chainhash.zeroHash ∧
    simNetGenesisBlock.Header.PrevBlock = chainhash.zeroHash ∧
    regNetGenesisBlock.Header.PrevBlock = chainhash.zeroHash ∧
    chainhash.zeroHash.length = 32 ∧
    (∀ b ∈ chainhash.zeroHash, b = 0) ∧
    chainhash.zeroHash =
      [0x00, 0x00, 0x00, 0x00, 0x00, 0x00, 0x00, 0x00,
       0x00, 0x00, 0x00, 0x00, 0x00, 0x00, 0x00, 0x00,
       0x00, 0x00, 0x00, 0x00, 0x00, 0x00, 0x00, 0x00,
       0x00, 0x00, 0x00, 0x00, 0x00, 0x00, 0x00, 0x00] := by
  refine ⟨rfl, rfl, rfl, rfl, rfl, ?_, rfl⟩
  decide

set_option maxRecDepth 100000 in
open chaincfg in
/-- C4: the simulation network genesis header has version 1, the all-zero
previous block hash, the main network merkle root, the timestamp Unix time
1401292357, bits `0x207fffff` and nonce 0, every other field being zero, and
`simNetGenesisHash` is the block hash of exactly that header. -/
theorem C4_simnet_header_and_hash :
    simNetGenesisBlock.Header.Version = 1 ∧
    simNetGenesisBlock.Header.PrevBlock = chainhash.zeroHash ∧
    simNetGenesisBlock.Header.MerkleRoot = genesisMerkleRoot ∧
    simNetGenesisBlock.Header.Timestamp = time.Unix 1401292357 0 ∧
    simNetGenesisBlock.Header.Timestamp.Unix = 1401292357 ∧
    simNetGenesisBlock.Header.Bits = 0x207fffff ∧
    simNetGenesisBlock.Header.Nonce = 0 ∧
    simNetGenesisBlock.Header =
      { Version := 1, PrevBlock := chainhash.zeroHash, MerkleRoot := genesisMerkleRoot,
        Timestamp := time.Unix 1401292357 0, Bits := 0x207fffff, Nonce := 0 } ∧
    simNetGenesisHash =
      wire.BlockHeader.BlockHash
        { Version := 1, PrevBlock := chainhash.zeroHash, MerkleRoot := genesisMerkleRoot,
          Timestamp := time.Unix 1401292357 0, Bits := 0x207fffff, Nonce := 0 } := by
  have hroot : simNetGenesisBlock.Header.MerkleRoot = genesisMerkleRoot := by
    simp only [simNetGenesisBlock, simNetGenesisMerkleRoot]
  have hhdr : simNetGenesisBlock.Header =
      { Version := 1, PrevBlock := chainhash.zeroHash, MerkleRoot := genesisMerkleRoot,
        Timestamp := time.Unix 1401292357 0, Bits := 0x207fffff, Nonce := 0 } := by
    rfl
  refine ⟨rfl, rfl, hroot, rfl, rfl, rfl, rfl, hhdr, ?_⟩
  rw [← hhdr]
  simp only [simNetGenesisHash, wire.MsgBlock.BlockHash]

set_option maxRecDepth 100000 in
open chaincfg in
/-- C5: every genesis block lists exactly one transaction, and each of the two
genesis coinbase transactions has exactly one input and exactly one output,
the input's previous outpoint being the all-zero hash with index
`0xffffffff`, all 32 bits set. -/
theorem C5_single_coinbase_with_null_outpoint :
    genesisBlock.Transactions.length = 1 ∧
    testNet3GenesisBlock.Transactions.length = 1 ∧
    simNetGenesisBlock.Transactions.length = 1 ∧
    regNetGenesisBlock.Transactions.length = 1 ∧
    (∀ tx ∈ [genesisCoinbaseTx, simNetGenesisCoinbaseTx],
      tx.TxIn.length = 1 ∧ tx.TxOut.length = 1 ∧
      ∀ ti ∈ tx.TxIn,
        ti.PreviousOutPoint.Hash = chainhash.zeroHash ∧
        ti.PreviousOutPoint.Index = 0xffffffff ∧
        ti.PreviousOutPoint.Index = 2 ^ 32 - 1) := by
  refine ⟨rfl, rfl, rfl, rfl, ?_⟩
  decide

set_option maxRecDepth 100000 in
open chaincfg in
/-- C6: the three consensus-tracking fields of the genesis coinbase inputs.
The main network coinbase input holds the three null constants; the
simulation network coinbase input leaves the fields out, so they are zero:
its block height is `NullBlockHeight`, but its block index and its input
value are not `NullBlockIndex` and `NullValueIn`. -/
theorem C6_input_tracking_fields :
    (∀ ti ∈ genesisCoinbaseTx.TxIn,
      ti.BlockHeight = wire.NullBlockHeight ∧ ti.BlockIndex = wire.NullBlockIndex ∧
      ti.ValueIn = wire.NullValueIn) ∧
    (∀ ti ∈ simNetGenesisCoinbaseTx.TxIn,
      ti.BlockHeight = wire.NullBlockHeight ∧
      ti.BlockIndex = 0 ∧ ti.BlockIndex ≠ wire.NullBlockIndex ∧
      ti.ValueIn = 0 ∧ ti.ValueIn ≠ wire.NullValueIn) := by
  decide

set_option maxRecDepth 100000 in
open chaincfg calendar in
/-- C7: the header timestamps against the calendar instants in the comments
beside them.  The main, test and regression test network timestamps are the
Unix times of their comments (the main one a Monday); the simulation network
timestamp 1401292357 is 2014-05-28 15:52:37 UTC, while the instant of its
comment, 2009-01-08 20:54:25 -0600, is Unix time 1231469665. -/
theorem C7_timestamps_against_comments :
    (genesisTimestampComment.valid = true ∧
      genesisBlock.Header.Timestamp.Unix = genesisTimestampComment.Unix ∧
      genesisBlock.Header.Timestamp.Unix = 1454954400 ∧
      weekday genesisBlock.Header.Timestamp.Unix = 1) ∧
    (testNet3TimestampComment.valid = true ∧
      testNet3GenesisBlock.Header.Timestamp.Unix = testNet3TimestampComment.Unix ∧
      testNet3GenesisBlock.Header.Timestamp.Unix = 1533513600) ∧
    (regNetTimestampComment.valid = true ∧
      regNetGenesisBlock.Header.Timestamp.Unix = regNetTimestampComment.Unix ∧
      regNetGenesisBlock.Header.Timestamp.Unix = 1538524800) ∧
    (simNetTimestampComment.valid = true ∧
      simNetGenesisBlock.Header.Timestamp.Unix = 1401292357 ∧
      simNetTimestampComment.Unix = 1231469665 ∧
      simNetGenesisBlock.Header.Timestamp.Unix ≠ simNetTimestampComment.Unix ∧
      simNetTimestampInstant.valid = true ∧
      simNetGenesisBlock.Header.Timestamp.Unix = simNetTimestampInstant.Unix) := by
  decide

set_option maxRecDepth 100000 in
open chaincfg blockchain in
/-- C8: the compact difficulty bits decode to the targets in their comments.
With exponent `e` (top 8 bits) and mantissa `m` (low 23 bits) the decoded
target is `m * 256 ^ (e - 3)`: for `0x1e00ffff` (test network) that is `ffff`
followed by 54 zero hex digits, and for `0x207fffff` (simulation and
regression test networks), the decimal number 545259519, it is `7fffff`
followed by 58 zero hex digits. -/
theorem C8_bits_decode_to_commented_targets :
    (testNet3GenesisBlock.Header.Bits = 0x1e00ffff ∧
      compactExponent testNet3GenesisBlock.Header.Bits = 0x1e ∧
      compactMantissa testNet3GenesisBlock.Header.Bits = 0xffff ∧
      CompactToBig testNet3GenesisBlock.Header.Bits
        = ((compactMantissa testNet3GenesisBlock.Header.Bits
            * 256 ^ (compactExponent testNet3GenesisBlock.Header.Bits - 3) : Nat) : Int) ∧
      CompactToBig testNet3GenesisBlock.Header.Bits = (testNet3BitsComment : Int) ∧
      testNet3BitsComment = 0x000000ffff * 16 ^ 54) ∧
    (∀ blk ∈ [simNetGenesisBlock, regNetGenesisBlock],
      blk.Header.Bits = 0x207fffff ∧
      blk.Header.Bits = simNetBitsDecimalComment ∧
      compactExponent blk.Header.Bits = 0x20 ∧
      compactMantissa blk.Header.Bits = 0x7fffff ∧
      CompactToBig blk.Header.Bits
        = ((compactMantissa blk.Header.Bits
            * 256 ^ (compactExponent blk.Header.Bits - 3) : Nat) : Int) ∧
      CompactToBig blk.Header.Bits = (simNetBitsComment : Int) ∧
      simNetBitsComment = 0x7fffff * 16 ^ 58) := by
  decide

set_option maxRecDepth 100000 in
open chaincfg in
/-- C9: the test network (version 3) genesis block lists the main network
coinbase transaction as its only transaction, and its header merkle root is
the reduced identifier `TxHash` of that transaction, which is a different hash
from the full identifier `genesisMerkleRoot` that the main, simulation and
regression test network headers carry. -/
theorem C9_testnet3_root_is_reduced_identifier :
    testNet3GenesisBlock.Transactions = [genesisCoinbaseTx] ∧
    testNet3GenesisBlock.Transactions.head? = some genesisCoinbaseTx ∧
    (∀ tx ∈ testNet3GenesisBlock.Transactions.head?,
      testNet3GenesisBlock.Header.MerkleRoot = tx.TxHash) ∧
    testNet3GenesisBlock.Header.MerkleRoot ≠ genesisMerkleRoot ∧
    genesisMerkleRoot = genesisCoinbaseTx.TxHashFull ∧
    genesisBlock.Header.MerkleRoot = genesisMerkleRoot ∧
    simNetGenesisBlock.Header.MerkleRoot = genesisMerkleRoot ∧
    regNetGenesisBlock.Header.MerkleRoot = genesisMerkleRoot := by
  refine ⟨rfl, rfl, ?_, ?_, rfl, ?_, ?_, ?_⟩
  · intro tx htx
    have h : genesisCoinbaseTx = tx := by
      simpa [testNet3GenesisBlock] using htx
    subst h
    simp only [testNet3GenesisBlock]
  · show genesisCoinbaseTx.TxHash ≠ genesisCoinbaseTx.TxHashFull
    rw [genesisCoinbaseTx_TxHash_known_answer, genesisCoinbaseTx_TxHashFull_known_answer]
    decide
  · simp only [genesisBlock]
  · simp only [simNetGenesisBlock, simNetGenesisMerkleRoot]
  · simp only [regNetGenesisBlock, regNetGenesisMerkleRoot]
